import Mathlib

/-!
Verification of the content-generation pipeline of `app.py` (AI Marketing
Content Generator).  Python strings are modeled as Lean `String`s (Python
`len`/slicing act on code points, as `String.length`/`List.take` on `data`
do); `None`-returning fallible Python functions are modeled with `Option`;
the two external LLM capabilities (`client.chat.completions.create` inside
`summarize_text`, and JSON deserialization `json.loads` inside
`generate_ad_content`) are parameters of the embedded functions.
Character-class tests of the Python standard library (`str.strip`, regex
`\s`, `re.IGNORECASE`) are modeled over their ASCII fragment.
-/

/-- Python `str.strip()` whitespace test, restricted to the ASCII range
(space, TAB, LF, CR, VT, FF).  This is also the ASCII fragment of the
regex character class `\s` used in `generate_ad_content`. -/
def isPySpace (c : Char) : Bool :=
  c = ' ' || c = '\t' || c = '\n' || c = '\r' || c = '\x0b' || c = '\x0c'

/-- Python `str.strip()` on a character list. -/
def pyStripL (l : List Char) : List Char :=
  ((l.dropWhile isPySpace).reverse.dropWhile isPySpace).reverse

/-- Python `str.strip()` (ASCII whitespace fragment). -/
def pyStrip (s : String) : String :=
  String.mk (pyStripL s.data)

/-- Python substring test `pat in s`. -/
def strContains (s pat : String) : Bool :=
  decide (pat.data <:+: s.data)

/-- Split a character list at the first occurrence of `c`
(Python `str.find` + slicing); `none` when `c` does not occur. -/
def splitAtFirst (c : Char) : List Char → Option (List Char × List Char)
  | [] => none
  | x :: xs =>
    if x = c then some ([], xs)
    else (splitAtFirst c xs).map (fun p => (x :: p.1, p.2))

/-! ## `urllib.parse` (CPython 3.11): `urlparse` / `urlunparse`

Embedded from CPython `Lib/urllib/parse.py` as used by `add_http`.
`_checknetloc` (which only rejects netlocs containing non-ASCII
characters whose NFKC normalization introduces delimiters) is modeled as
a no-op; hosts containing `[` or `]` (bracketed IPv6/IPvFuture hosts,
which CPython validates and may reject with `ValueError`) are modeled
conservatively as a parse failure. -/

/-- Bytes CPython `urlsplit` removes anywhere in the URL
(`_UNSAFE_URL_BYTES_TO_REMOVE`). -/
def urlDisallowedByte (c : Char) : Bool :=
  c = '\t' || c = '\r' || c = '\n'

/-- WHATWG C0-control-or-space test; CPython `urlsplit` lstrips these. -/
def isC0ControlOrSpace (c : Char) : Bool :=
  c.toNat ≤ 32

/-- CPython `scheme_chars` membership (ASCII letters, digits, `+`, `-`, `.`). -/
def scheme_char (c : Char) : Bool :=
  c.isAlpha || c.isDigit || c = '+' || c = '-' || c = '.'

structure SplitResult where
  scheme : String
  netloc : String
  path : String
  query : String
  fragment : String
deriving DecidableEq

/-- Scheme detection of `urlsplit`: `i = url.find(':')`; accept when
`i > 0`, the first character is an ASCII letter and everything before the
colon is in `scheme_chars`; the scheme is lowercased. -/
def splitSchemeL (l : List Char) : String × List Char :=
  match splitAtFirst ':' l with
  | none => ("", l)
  | some (before, after) =>
    match before with
    | [] => ("", l)
    | c :: _ =>
      if c.isAlpha && before.all scheme_char then
        (String.mk (before.map Char.toLower), after)
      else ("", l)

def netlocDelim (c : Char) : Bool :=
  c = '/' || c = '?' || c = '#'

/-- CPython 3.11 `urlsplit` (with `allow_fragments=True`):
lstrip C0-control-or-space, remove TAB/CR/LF, detect the scheme, split
off the netloc after a leading `//` (up to the first `/`, `?` or `#`),
then split the fragment at the first `#` and the query at the first `?`.
`none` models a raised `ValueError` (bracketed hosts, see above). -/
def urlsplit (url : String) : Option SplitResult :=
  let l0 := (url.data.dropWhile isC0ControlOrSpace).filter (fun c => !urlDisallowedByte c)
  let sp := splitSchemeL l0
  let hasNetloc : Bool := sp.2.take 2 = ['/', '/']
  let netloc := if hasNetloc then (sp.2.drop 2).takeWhile (fun c => !netlocDelim c) else []
  let rest2 := if hasNetloc then (sp.2.drop 2).dropWhile (fun c => !netlocDelim c) else sp.2
  if netloc.contains '[' || netloc.contains ']' then
    none
  else
    let fr := match splitAtFirst '#' rest2 with
      | some p => p
      | none => (rest2, [])
    let pq := match splitAtFirst '?' fr.1 with
      | some p => p
      | none => (fr.1, [])
    some { scheme := sp.1, netloc := String.mk netloc, path := String.mk pq.1,
           query := String.mk pq.2, fragment := String.mk fr.2 }

/-- CPython `_splitparams`: split the params off the path at the first
`;` occurring after the last `/` (or anywhere when there is no `/`). -/
def splitparamsL (path : List Char) : List Char × List Char :=
  if path.contains '/' then
    let seg := (path.reverse.takeWhile (fun c => c ≠ '/')).reverse
    let pre := path.take (path.length - seg.length)
    match splitAtFirst ';' seg with
    | none => (path, [])
    | some p => (pre ++ p.1, p.2)
  else
    match splitAtFirst ';' path with
    | none => (path, [])
    | some p => (p.1, p.2)

structure ParseResult where
  scheme : String
  netloc : String
  path : String
  params : String
  query : String
  fragment : String
deriving DecidableEq

/-- CPython `uses_params`. -/
def uses_params : List String :=
  ["", "ftp", "hdl", "prospero", "http", "imap", "https", "shttp", "rtsp",
   "rtsps", "rtspu", "sip", "sips", "mms", "sftp", "tel"]

/-- CPython `urlparse`: `urlsplit`, then split params off the path when
the scheme is in `uses_params` and the path contains a `;`. -/
def urlparse (url : String) : Option ParseResult :=
  (urlsplit url).map fun s =>
    if uses_params.contains s.scheme && s.path.data.contains ';' then
      let p := splitparamsL s.path.data
      { scheme := s.scheme, netloc := s.netloc, path := String.mk p.1,
        params := String.mk p.2, query := s.query, fragment := s.fragment }
    else
      { scheme := s.scheme, netloc := s.netloc, path := s.path,
        params := "", query := s.query, fragment := s.fragment }

/-- CPython `uses_netloc`. -/
def uses_netloc : List String :=
  ["", "ftp", "http", "gopher", "nntp", "telnet", "imap", "wais", "file", "mms",
   "https", "shttp", "snews", "prospero", "rtsp", "rtsps", "rtspu", "rsync", "svn",
   "svn+ssh", "sftp", "nfs", "git", "git+ssh", "ws", "wss"]

/-- CPython 3.11 `urlunsplit`. -/
def urlunsplit (scheme netloc path query fragment : String) : String :=
  let url1 :=
    if netloc ≠ "" || (scheme ≠ "" && uses_netloc.contains scheme && path.data.take 2 ≠ ['/', '/']) then
      "//" ++ netloc ++ (if path ≠ "" && path.data.take 1 ≠ ['/'] then "/" ++ path else path)
    else path
  let url2 := if scheme ≠ "" then scheme ++ ":" ++ url1 else url1
  let url3 := if query ≠ "" then url2 ++ "?" ++ query else url2
  if fragment ≠ "" then url3 ++ "#" ++ fragment else url3

/-- CPython `urlunparse`: re-attach params to the path, then `urlunsplit`. -/
def urlunparse (p : ParseResult) : String :=
  urlunsplit p.scheme p.netloc
    (if p.params ≠ "" then p.path ++ ";" ++ p.params else p.path) p.query p.fragment

/-- `parsed.path.split('/')[0]`. -/
def firstPathSegmentL (l : List Char) : List Char :=
  l.takeWhile (fun c => c ≠ '/')

/-- `add_http` (app.py:31-44): empty input is returned as is; input with
no scheme gets `https://` prepended when the first path segment contains
a dot and is returned unchanged otherwise; input with a scheme is
re-serialized via `urlunparse`.  `none` models an uncaught exception
escaping from `urlparse`. -/
def add_http (url : String) : Option String :=
  if url = "" then some url
  else
    match urlparse url with
    | none => none
    | some parsed =>
      if parsed.scheme = "" then
        if (firstPathSegmentL parsed.path.data).contains '.' then
          some ("https://" ++ url)
        else
          some url
      else some (urlunparse parsed)

example : add_http "example.com/page" = some "https://example.com/page" := by decide
example : add_http "localhost" = some "localhost" := by decide
example : add_http "http://example.com?" = some "http://example.com" := by decide
example : add_http "http://example.com/page" = some "http://example.com/page" := by decide
example : add_http "HTTP://a.com" = some "http://a.com" := by decide
example : add_http "localhost:8080/x" = some "localhost:8080/x" := by decide
example : add_http "http://a.com/p;params?q=1#f" = some "http://a.com/p;params?q=1#f" := by decide
example : add_http "ws://h/x;" = some "ws://h/x;" := by decide
example : add_http "ws://h/x;y" = some "ws://h/x;y" := by decide
example : add_http "http://h/x;" = some "http://h/x" := by decide
example : add_http "tel:123;p=1" = some "tel:123;p=1" := by decide
example : add_http "mailto:a;" = some "mailto:a;" := by decide
example : add_http "" = some "" := by decide

/-! ## Content Generator (`generate_ad_content`, app.py:134-167)

The recovery regex is
`re.search(r'\x60\x60\x60json\s*([\s\S]*?)\s*\x60\x60\x60', content, re.IGNORECASE)`
(three backticks, written `\x60` here).  Its leftmost-match/lazy-group
semantics work out to: find the leftmost case-insensitive occurrence of
the 7-character opener that is followed by a closing triple backtick;
the captured group is the text between the opener and the *first*
following triple backtick, with surrounding whitespace stripped. -/

/-- A closing fence: three backticks. -/
def ticks : List Char := ['\x60', '\x60', '\x60']

/-- The 7-character opener, lowercased: three backticks then `json`. -/
def fenceLabel : List Char := ['\x60', '\x60', '\x60', 'j', 's', 'o', 'n']

/-- Case-insensitive match of the opener at the head of `l`
(ASCII fragment of `re.IGNORECASE`). -/
def fenceOpenAt (l : List Char) : Bool :=
  (l.take 7).map Char.toLower = fenceLabel

/-- Index of the first occurrence of a closing fence (`str.find`). -/
def firstTicksIdx : List Char → Option Nat
  | [] => none
  | l@(_ :: tl) =>
    if l.take 3 = ticks then some 0
    else (firstTicksIdx tl).map (· + 1)

/-- Leftmost position where the whole pattern can match: the opener
matches here and a closing fence occurs afterwards.  Returns the text
after the opener. -/
def findFenceRest : List Char → Option (List Char)
  | [] => none
  | l@(_ :: tl) =>
    if fenceOpenAt l && (firstTicksIdx (l.drop 7)).isSome then some (l.drop 7)
    else findFenceRest tl

/-- `match.group(1)` of the recovery regex, `none` when there is no match. -/
def extract_json_block (content : String) : Option String :=
  match findFenceRest content.data with
  | none => none
  | some rest =>
    match firstTicksIdx rest with
    | none => none
    | some p => some (String.mk (pyStripL (rest.take p)))

/-- `generate_ad_content` (app.py:134-167), from the point where the raw
LLM response text is in hand: strip it, try `json_loads` directly, on
failure try to extract a fenced JSON block and parse that, otherwise
return `none`.  `json_loads` abstracts Python `json.loads`, with `none`
for `json.JSONDecodeError`. -/
def generate_ad_content {J : Type} (json_loads : String → Option J) (rawResponse : String) : Option J :=
  let content := pyStrip rawResponse
  match json_loads content with
  | some j => some j
  | none =>
    match extract_json_block content with
    | some inner => json_loads inner
    | none => none

/-! ## Summarizer (`summarize_text`, app.py:99-132) -/

/-- Budget selection (app.py:529):
`max_chars = 3000 if len(text) > 5000 else 1800`. -/
def select_max_chars (text : String) : Nat :=
  if text.length > 5000 then 3000 else 1800

/-- The text actually embedded in the summarization prompt:
`text[:40000]` (app.py:112). -/
def summarize_submitted_text (text : String) : String :=
  String.mk (text.data.take 40000)

/-- The summarization prompt f-string up to the embedded text. -/
def summarize_prompt_head (source_name : String) (max_chars : Nat) : String :=
  "\n    Please summarize the following text extracted from \x27" ++ source_name ++
  "\x27.\n    Focus on the company\x27s core offerings, value proposition, target audience, and key marketing messages.\n    The summary should be concise and informative, suitable for generating marketing ad copy.\n    Keep the summary under " ++
  toString max_chars ++ " characters.\n\n    Text to summarize:\n    ---\n    "

/-- The summarization prompt f-string after the embedded text. -/
def summarize_prompt_tail : String := "\n    ---\n\n    Summary:\n    "

def summarize_prompt (text : String) (max_chars : Nat) (source_name : String) : String :=
  summarize_prompt_head source_name max_chars ++ summarize_submitted_text text ++ summarize_prompt_tail

/-- The fixed string returned on empty/whitespace-only input (app.py:102). -/
def no_content_message (source_name : String) : String :=
  if source_name ≠ "" then "No content extracted from " ++ source_name ++ "."
  else "No content provided."

/-- `summarize_text` (app.py:99-132).  `api` abstracts the chat-completion
call, returning the response message content or an exception message. -/
def summarize_text (api : String → Except String String) (text : String)
    (max_chars : Nat) (source_name : String) : String :=
  if text = "" || pyStrip text = "" then
    no_content_message source_name
  else
    match api (summarize_prompt text max_chars source_name) with
    | Except.ok summary => pyStrip summary
    | Except.error _ => "Error during summarization for " ++ source_name ++ "."

/-- Number of LLM invocations `summarize_text` makes: zero exactly when
the empty-input short circuit (app.py:101) fires. -/
def summarize_api_calls (text : String) : Nat :=
  if text = "" || pyStrip text = "" then 0 else 1

/-! ## Pipeline after extraction (generate_button handler, app.py:517-689) -/

/-- Per-source labeled summary (app.py:531):
`f"--- Context from {name} ---\n{summary}"`. -/
def labeled_summary (name summary : String) : String :=
  "--- Context from " ++ name ++ " ---\n" ++ summary

/-- The summarization loop (app.py:525-532) over the extracted
`(name, text)` pairs in insertion order. -/
def run_summaries (api : String → Except String String)
    (extracted : List (String × String)) : List String :=
  extracted.map fun p =>
    labeled_summary p.1 (summarize_text api p.2 (select_max_chars p.2) p.1)

/-- Python `sep.join(l)`. -/
def pyJoin (sep : String) : List String → String
  | [] => ""
  | [s] => s
  | s :: t :: rest => s ++ sep ++ pyJoin sep (t :: rest)

/-- `combined_summary = "\n\n".join(summaries)` (app.py:534). -/
def combined_summary (summaries : List String) : String :=
  pyJoin "\n\n" summaries

/-- The error-shape detector of the halt check: `"Error" in s`. -/
def containsError (s : String) : Bool :=
  strContains s "Error"

/-- The halt condition after summarization (app.py:536):
`not combined_summary or all("Error" in s for s in summaries)`. -/
def halt_after_summaries (summaries : List String) : Bool :=
  combined_summary summaries = "" || summaries.all containsError

inductive HaltPoint where
  | noText
  | summaryFail
  | completed
deriving DecidableEq

/-- Where the generate-button run stops: `st.stop()` at app.py:519 when
nothing was extracted, `st.stop()` at app.py:538 when the summary halt
condition fires, otherwise the run completes. -/
def pipeline_halt (api : String → Except String String)
    (extracted : List (String × String)) : HaltPoint :=
  if extracted = [] then HaltPoint.noText
  else if halt_after_summaries (run_summaries api extracted) then HaltPoint.summaryFail
  else HaltPoint.completed

/-- Total number of LLM invocations the run makes: none before the
app.py:519 halt; only the summarization calls when the app.py:538 halt
fires; otherwise additionally the 9 ad-generation calls (1 email +
3 LinkedIn + 3 Facebook + 1 Google Search + 1 Google Display). -/
def pipeline_gen_calls (api : String → Except String String)
    (extracted : List (String × String)) : Nat :=
  if extracted = [] then 0
  else
    let sumCalls := (extracted.map fun p => summarize_api_calls p.2).sum
    if halt_after_summaries (run_summaries api extracted) then sumCalls
    else sumCalls + 9

/-! ## Tabular assembly (app.py:548-689)

Generation responses are JSON objects; for the column-set claims only
the keys matter, so a variant row is modeled by its key list (in dict
order; Python dict keys are unique) and a response object by an
association list from top-level key to its array of rows. -/

/-- A generation response object for email/LinkedIn/Facebook: top-level
keys mapped to arrays of variant rows, a row being its key list. -/
abbrev AdJson := List (String × List (List String))

/-- The Email schema requested at app.py:255. -/
def emailFields : List String :=
  ["Ad Name", "Objective", "Headline", "Subject Line", "Body", "CTA"]

/-- The LinkedIn schema requested at app.py:289. -/
def linkedinFields : List String :=
  ["Ad Name", "Objective", "Introductory Text", "Image Copy", "Headline", "Destination", "CTA Button"]

/-- Fold one row into a running column list, keeping first-appearance
order (how `pd.DataFrame(list_of_dicts)` collects its columns). -/
def addRowKeys (acc : List String) (ks : List String) : List String :=
  ks.foldl (fun a k => if a.contains k then a else a ++ [k]) acc

/-- Columns of `pd.DataFrame(rows)`: union of the row keys in order of
first appearance (also the columns of a `pd.concat` of such frames). -/
def df_columns (rows : List (List String)) : List String :=
  rows.foldl addRowKeys []

/-- The acceptance check `if resp_json and key in resp_json:` followed by
`resp_json[key]` (app.py:553, 588, 627): `none` for a failed generation
call, a falsy (empty) object, or a missing top-level key. -/
def accepted_rows (key : String) (json : Option AdJson) : Option (List (List String)) :=
  match json with
  | none => none
  | some obj =>
    if !obj.isEmpty then
      match obj.lookup key with
      | some rows => some rows
      | none => none
    else none

/-- Columns of the Email sheet (app.py:553-563): the DataFrame of the
accepted rows, or an empty DataFrame on rejection. -/
def email_sheet_columns (email_json : Option AdJson) : List String :=
  match accepted_rows "emails" email_json with
  | some rows => df_columns rows
  | none => []

/-- The accepted per-objective row lists of the LinkedIn loop
(app.py:572-597). -/
def linkedin_accepted (responses : List (Option AdJson)) : List (List (List String)) :=
  responses.filterMap (accepted_rows "linkedin_ads")

/-- Columns of the LinkedIn sheet (app.py:598-602): `pd.concat` of the
accepted per-objective DataFrames, or an empty DataFrame when every
sub-call was rejected. -/
def linkedin_sheet_columns (responses : List (Option AdJson)) : List String :=
  if linkedin_accepted responses ≠ [] then df_columns (linkedin_accepted responses).flatten
  else []

/-- A Google generation response object: top-level keys mapped to arrays
of strings. -/
abbrev GoogleJson := List (String × List String)

/-- The Google padding (app.py:656-659 and 677-679): pad BOTH arrays
with `None` up to the longer one's length. -/
def pad_google_lists (headlines descriptions : List String) :
    List (Option String) × List (Option String) :=
  let max_len := max headlines.length descriptions.length
  (headlines.map some ++ List.replicate (max_len - headlines.length) none,
   descriptions.map some ++ List.replicate (max_len - descriptions.length) none)

/-- The Google Search sheet columns' data (app.py:654-669); the identical
code at app.py:675-689 builds the Google Display sheet.  `none` models
the rejection branches (failed call, falsy object, or a missing
`headlines`/`descriptions` key), which produce an empty DataFrame. -/
def google_sheet (json : Option GoogleJson) :
    Option (List (Option String) × List (Option String)) :=
  match json with
  | none => none
  | some obj =>
    if !obj.isEmpty then
      match obj.lookup "headlines", obj.lookup "descriptions" with
      | some hs, some ds => some (pad_google_lists hs ds)
      | _, _ => none
    else none

/-! ## Link/CTA resolution (app.py:572-584 and 611-623) -/

/-- The four link inputs in scope in the generate-button handler. -/
structure RunLinks where
  learn_more_link : String
  download_link : String
  objective_link : String
  company_url : String
deriving DecidableEq

/-- The fallback at app.py:583-584 and 622-623:
`if not dest_link: dest_link = learn_more_link if learn_more_link else company_url`. -/
def resolve_dest_fallback (links : RunLinks) (dest : String) : String :=
  if dest = "" then
    if links.learn_more_link ≠ "" then links.learn_more_link else links.company_url
  else dest

/-- LinkedIn destination-link and CTA-label resolution (app.py:574-584). -/
def linkedin_link_cta (links : RunLinks) (lead_objective : String) (obj : String) :
    String × String :=
  let pair :=
    if obj = "Demand Gen" then (links.download_link, "Download")
    else if obj = "Demand Capture" then
      (links.objective_link,
       if lead_objective = "Demo Booking" then "Register" else "Request Demo")
    else (links.learn_more_link, "Learn More")
  (resolve_dest_fallback links pair.1, pair.2)

/-- Facebook destination-link and CTA-label resolution (app.py:613-623);
the CTA for Demand Capture is always `"Book Now"`, independent of
`lead_objective`. -/
def facebook_link_cta (links : RunLinks) (lead_objective : String) (obj : String) :
    String × String :=
  let pair :=
    if obj = "Demand Gen" then (links.download_link, "Download")
    else if obj = "Demand Capture" then (links.objective_link, "Book Now")
    else (links.learn_more_link, "Learn More")
  (resolve_dest_fallback links pair.1, pair.2)

/-! ## Theorems -/

theorem foldl_addRowKeys_const (ks : List String) (hkk : addRowKeys ks ks = ks) :
    ∀ rows : List (List String), (∀ r ∈ rows, r = ks) →
      List.foldl addRowKeys ks rows = ks := by
  intro rows
  induction rows with
  | nil => intro _; rfl
  | cons r rest ih =>
    intro h
    have hr : r = ks := h r (List.mem_cons_self r rest)
    have hstep : List.foldl addRowKeys ks (r :: rest) =
        List.foldl addRowKeys (addRowKeys ks r) rest := rfl
    rw [hstep, hr, hkk]
    exact ih (fun x hx => h x (List.mem_cons_of_mem _ hx))

theorem df_columns_const (ks : List String) (h0 : addRowKeys [] ks = ks)
    (hkk : addRowKeys ks ks = ks) (rows : List (List String)) (hne : rows ≠ [])
    (hall : ∀ r ∈ rows, r = ks) : df_columns rows = ks := by
  cases rows with
  | nil => exact absurd rfl hne
  | cons r rest =>
    have hr : r = ks := hall r (List.mem_cons_self r rest)
    have hstep : df_columns (r :: rest) = List.foldl addRowKeys (addRowKeys [] r) rest := rfl
    rw [hstep, hr, h0]
    exact foldl_addRowKeys_const ks hkk rest (fun x hx => hall x (List.mem_cons_of_mem _ hx))

theorem halt_iff (summaries : List String) :
    halt_after_summaries summaries = true ↔
      (summaries.all containsError = true ∨ combined_summary summaries = "") := by
  unfold halt_after_summaries
  rw [Bool.or_eq_true, decide_eq_true_eq]
  exact or_comm

/-- Claim C1 counterexample: the response object with one headline and
zero descriptions is accepted, and the resulting table has 1 headline
slot and 1 description slot — not 15 and 4. -/
theorem claim1_counterexample :
    google_sheet (some [("headlines", ["h1"]), ("descriptions", [])]) =
      some ([some "h1"], [none]) ∧
    ([some "h1"] : List (Option String)).length = 1 ∧
    ([(none : Option String)] : List (Option String)).length = 1 ∧
    ¬ ([some "h1"] : List (Option String)).length = 15 ∧
    ¬ ([(none : Option String)] : List (Option String)).length = 4 := by
  decide

/-- Claim C1 (amended): for every accepted Google response (non-empty
object containing both keys) the table is built by `pad_google_lists`,
whose headline and description columns BOTH have length
`max #headlines #descriptions` — the shorter array is padded with empty
markers up to the longer one, not to the fixed 15/4 (or 5/5) quotas.
The identical code builds the Google Display table. -/
theorem claim1_theorem (obj : GoogleJson) (hs ds : List String)
    (hne : obj ≠ []) (hh : obj.lookup "headlines" = some hs)
    (hd : obj.lookup "descriptions" = some ds) :
    google_sheet (some obj) = some (pad_google_lists hs ds) ∧
    (pad_google_lists hs ds).1.length = max hs.length ds.length ∧
    (pad_google_lists hs ds).2.length = max hs.length ds.length := by
  refine ⟨?_, ?_, ?_⟩
  · have hobj : obj.isEmpty = false := by
      cases obj with
      | nil => exact absurd rfl hne
      | cons a l => rfl
    simp [google_sheet, hobj, hh, hd]
  · simp only [pad_google_lists, List.length_append, List.length_map, List.length_replicate]
    omega
  · simp only [pad_google_lists, List.length_append, List.length_map, List.length_replicate]
    omega

theorem claim1_witness :
    google_sheet (some [("headlines", ["a", "b"]), ("descriptions", ["d"])]) =
      some (pad_google_lists ["a", "b"] ["d"]) ∧
    (pad_google_lists ["a", "b"] ["d"]).1.length =
      max (["a", "b"] : List String).length (["d"] : List String).length ∧
    (pad_google_lists ["a", "b"] ["d"]).2.length =
      max (["a", "b"] : List String).length (["d"] : List String).length :=
  claim1_theorem _ _ _ (by decide) (by decide) (by decide)

/-- Claim C2 counterexample: a variant whose only key is `"Foo"` is
accepted (only the top-level `"emails"` key is checked), and the Email
table's columns are `["Foo"]`, not the Email schema; a rejected response
yields a table with no columns at all. -/
theorem claim2_counterexample :
    email_sheet_columns (some [("emails", [["Foo"]])]) = ["Foo"] ∧
    email_sheet_columns (some [("emails", [["Foo"]])]) ≠ emailFields ∧
    email_sheet_columns none = [] ∧
    ([] : List String) ≠ emailFields := by
  decide

/-- Claim C2 (amended): the produced table's columns are the keys of the
returned variants in order of first appearance — only the top-level
wrapper key is validated, not the variants' key sets.  In particular the
column set equals the channel's fixed schema whenever the generator
returns at least one variant and every variant carries exactly the
schema keys (a sufficient condition, not a necessary one: other key
layouts can assemble the same first-appearance union); with no accepted
variants the table has no columns. -/
theorem claim2_theorem :
    (∀ (json : AdJson) (rows : List (List String)),
        accepted_rows "emails" (some json) = some rows → rows ≠ [] →
        (∀ r ∈ rows, r = emailFields) →
        email_sheet_columns (some json) = emailFields) ∧
    (∀ responses : List (Option AdJson),
        (linkedin_accepted responses).flatten ≠ [] →
        (∀ r ∈ (linkedin_accepted responses).flatten, r = linkedinFields) →
        linkedin_sheet_columns responses = linkedinFields) := by
  constructor
  · intro json rows hacc hne hall
    unfold email_sheet_columns
    rw [hacc]
    exact df_columns_const emailFields (by decide) (by decide) rows hne hall
  · intro responses hne hall
    have hacc : linkedin_accepted responses ≠ [] := by
      intro h
      rw [h] at hne
      exact hne rfl
    unfold linkedin_sheet_columns
    rw [if_pos hacc]
    exact df_columns_const linkedinFields (by decide) (by decide) _ hne hall

theorem claim2_witness :
    email_sheet_columns (some [("emails", [emailFields, emailFields])]) = emailFields ∧
    linkedin_sheet_columns [some [("linkedin_ads", [linkedinFields])], none, none] = linkedinFields :=
  ⟨claim2_theorem.1 [("emails", [emailFields, emailFields])] [emailFields, emailFields]
      (by decide) (by decide) (by decide),
   claim2_theorem.2 [some [("linkedin_ads", [linkedinFields])], none, none]
      (by decide) (by decide)⟩

/-- Claim C3 (confirmed): for every raw response, once stripped as the
code does: a direct parse success is returned as is; on direct parse
failure, if a fenced JSON block is located the call returns exactly the
parse of its contents; with no fenced block the call returns `none`.
No retry and no escaping exception (totality of the embedding). -/
theorem claim3_theorem {J : Type} (json_loads : String → Option J) (raw : String) :
    (∀ j, json_loads (pyStrip raw) = some j → generate_ad_content json_loads raw = some j) ∧
    (json_loads (pyStrip raw) = none →
      (∀ inner, extract_json_block (pyStrip raw) = some inner →
        generate_ad_content json_loads raw = json_loads inner) ∧
      (extract_json_block (pyStrip raw) = none →
        generate_ad_content json_loads raw = none)) := by
  refine ⟨?_, ?_⟩
  · intro j hj
    simp [generate_ad_content, hj]
  · intro hn
    refine ⟨?_, ?_⟩
    · intro inner hi
      simp [generate_ad_content, hn, hi]
    · intro he
      simp [generate_ad_content, hn, he]

theorem claim3_witness :
    generate_ad_content (fun s => if s = "42" then some (42 : Nat) else none)
      "oops \x60\x60\x60json\n42\n\x60\x60\x60 end" = some 42 ∧
    generate_ad_content (fun s => if s = "42" then some (42 : Nat) else none)
      "oops no json here" = none := by
  constructor
  · have h := ((claim3_theorem (fun s => if s = "42" then some (42 : Nat) else none)
      "oops \x60\x60\x60json\n42\n\x60\x60\x60 end").2 (by decide)).1 "42" (by decide)
    exact h.trans (by decide)
  · exact ((claim3_theorem (fun s => if s = "42" then some (42 : Nat) else none)
      "oops no json here").2 (by decide)).2 (by decide)

/-- Claim C6 (confirmed): for Demand Capture, the LinkedIn CTA label is
`"Register"` when the primary lead objective is `"Demo Booking"` and
`"Request Demo"` when it is `"Sales Meeting"`; the Facebook Demand
Capture CTA label is `"Book Now"` for every primary lead objective. -/
theorem claim6_theorem (links : RunLinks) (lead_objective : String) :
    (linkedin_link_cta links "Demo Booking" "Demand Capture").2 = "Register" ∧
    (linkedin_link_cta links "Sales Meeting" "Demand Capture").2 = "Request Demo" ∧
    (facebook_link_cta links lead_objective "Demand Capture").2 = "Book Now" :=
  ⟨rfl, rfl, rfl⟩

/-- Claim C7 (confirmed): when no context source yields text, the run
halts at the app.py:519 check and the generation capability is invoked
zero times. -/
theorem claim7_theorem (api : String → Except String String)
    (extracted : List (String × String)) (h : extracted = []) :
    pipeline_halt api extracted = HaltPoint.noText ∧
    pipeline_gen_calls api extracted = 0 := by
  subst h
  exact ⟨rfl, rfl⟩

theorem claim7_witness :
    pipeline_halt (fun _ => Except.ok "") [] = HaltPoint.noText ∧
    pipeline_gen_calls (fun _ => Except.ok "") [] = 0 :=
  claim7_theorem _ _ rfl

/-- Claim C8 (confirmed): the summarization budget is 3000 exactly when
the source text is longer than 5000 characters and 1800 otherwise, and
the text submitted inside the prompt is `text[:40000]`, hence at most
40000 characters. -/
theorem claim8_theorem (text : String) (max_chars : Nat) (source_name : String) :
    (select_max_chars text = 3000 ↔ 5000 < text.length) ∧
    (select_max_chars text = 1800 ↔ ¬ 5000 < text.length) ∧
    summarize_prompt text max_chars source_name =
      summarize_prompt_head source_name max_chars ++
        String.mk (text.data.take 40000) ++ summarize_prompt_tail ∧
    (summarize_submitted_text text).length ≤ 40000 := by
  refine ⟨?_, ?_, rfl, ?_⟩
  · unfold select_max_chars
    by_cases h : 5000 < text.length <;> simp [h]
  · unfold select_max_chars
    by_cases h : 5000 < text.length <;> simp [h]
  · have hlen : (summarize_submitted_text text).length = (text.data.take 40000).length := rfl
    rw [hlen, List.length_take]
    exact min_le_left _ _

/-- Claim C4 (confirmed): a run that reaches summarization (at least one
extracted source) stops at the app.py:538 halt — before any
ad-generation call — exactly when every per-source labeled summary
contains `"Error"` or the combined summary is empty; otherwise it
completes and makes the 9 ad-generation calls. -/
theorem claim4_theorem (api : String → Except String String)
    (extracted : List (String × String)) (hne : extracted ≠ []) :
    (pipeline_halt api extracted = HaltPoint.summaryFail ↔
      ((run_summaries api extracted).all containsError = true ∨
        combined_summary (run_summaries api extracted) = "")) ∧
    (pipeline_halt api extracted = HaltPoint.completed ↔
      ¬ ((run_summaries api extracted).all containsError = true ∨
        combined_summary (run_summaries api extracted) = "")) ∧
    (pipeline_halt api extracted = HaltPoint.summaryFail →
      pipeline_gen_calls api extracted =
        (extracted.map fun p => summarize_api_calls p.2).sum) ∧
    (pipeline_halt api extracted = HaltPoint.completed →
      pipeline_gen_calls api extracted =
        (extracted.map fun p => summarize_api_calls p.2).sum + 9) := by
  by_cases hb : halt_after_summaries (run_summaries api extracted) = true
  · have hc := (halt_iff _).mp hb
    have hhalt : pipeline_halt api extracted = HaltPoint.summaryFail := by
      simp [pipeline_halt, hne, hb]
    have hcalls : pipeline_gen_calls api extracted =
        (extracted.map fun p => summarize_api_calls p.2).sum := by
      simp [pipeline_gen_calls, hne, hb]
    refine ⟨⟨fun _ => hc, fun _ => hhalt⟩, ?_, fun _ => hcalls, ?_⟩
    · constructor
      · intro h
        rw [hhalt] at h
        exact absurd h (by simp)
      · intro h
        exact absurd hc h
    · intro h
      rw [hhalt] at h
      exact absurd h (by simp)
  · have hb' : halt_after_summaries (run_summaries api extracted) = false :=
      Bool.not_eq_true _ ▸ (Bool.eq_false_iff.mpr (fun h => hb h))
    have hc : ¬ ((run_summaries api extracted).all containsError = true ∨
        combined_summary (run_summaries api extracted) = "") :=
      fun h => hb ((halt_iff _).mpr h)
    have hhalt : pipeline_halt api extracted = HaltPoint.completed := by
      simp [pipeline_halt, hne, hb']
    have hcalls : pipeline_gen_calls api extracted =
        (extracted.map fun p => summarize_api_calls p.2).sum + 9 := by
      simp [pipeline_gen_calls, hne, hb']
    refine ⟨?_, ⟨fun _ => hc, fun _ => hhalt⟩, ?_, fun _ => hcalls⟩
    · constructor
      · intro h
        rw [hhalt] at h
        exact absurd h (by simp)
      · intro h
        exact absurd h hc
    · intro h
      rw [hhalt] at h
      exact absurd h (by simp)

theorem claim4_witness :
    pipeline_halt (fun _ => Except.error "boom") [("website", "hello")] = HaltPoint.summaryFail ∧
    pipeline_gen_calls (fun _ => Except.error "boom") [("website", "hello")] = 1 := by
  have h := claim4_theorem (fun _ => Except.error "boom") [("website", "hello")] (by decide)
  have hh := h.1.mpr (Or.inl (by decide))
  exact ⟨hh, (h.2.2.1 hh).trans (by decide)⟩

/-- An infix of a concatenation lies in the left part, lies in the right
part, or straddles the boundary (a nonempty suffix piece of the left
part followed by a nonempty prefix piece of the right part). -/
theorem infix_append_split {α : Type} (p a b : List α) (h : p <:+: a ++ b) :
    p <:+: a ∨ p <:+: b ∨
      ∃ k, 0 < k ∧ k < p.length ∧ p.take k <:+ a ∧ p.drop k <+: b := by
  obtain ⟨s, t, hst⟩ := h
  have ha : a = List.take a.length (s ++ p ++ t) := by
    rw [hst]
    exact (List.take_left a b).symm
  have hb : b = List.drop a.length (s ++ p ++ t) := by
    rw [hst]
    exact (List.drop_left a b).symm
  rw [List.append_assoc] at ha hb
  by_cases h1 : s.length + p.length ≤ a.length
  · left
    rw [List.take_append_eq_append_take,
        List.take_of_length_le (show s.length ≤ a.length by omega),
        List.take_append_eq_append_take,
        List.take_of_length_le (show p.length ≤ a.length - s.length by omega)] at ha
    refine ⟨s, List.take (a.length - s.length - p.length) t, ?_⟩
    rw [List.append_assoc]
    exact ha.symm
  · by_cases h2 : a.length ≤ s.length
    · right; left
      rw [List.drop_append_eq_append_drop,
          show a.length - s.length = 0 by omega, List.drop_zero] at hb
      exact ⟨List.drop a.length s, t, by rw [hb]; exact List.append_assoc _ p t⟩
    · right; right
      refine ⟨a.length - s.length, by omega, by omega, ?_, ?_⟩
      · rw [List.take_append_eq_append_take,
            List.take_of_length_le (show s.length ≤ a.length by omega),
            List.take_append_eq_append_take,
            show a.length - s.length - p.length = 0 by omega,
            List.take_zero, List.append_nil] at ha
        exact ⟨s, ha.symm⟩
      · rw [List.drop_append_eq_append_drop,
            List.drop_eq_nil_of_le (show s.length ≤ a.length by omega),
            List.nil_append, List.drop_append_eq_append_drop,
            show a.length - s.length - p.length = 0 by omega,
            List.drop_zero] at hb
        exact ⟨t, hb.symm⟩

/-- Closure of "`"Error"` does not occur" under concatenation, given that
no split of `"Error"` straddles the boundary. -/
theorem noErr_append (a b : List Char)
    (ha : ¬ "Error".data <:+: a) (hb : ¬ "Error".data <:+: b)
    (hbd : ∀ k, 0 < k → k < 5 →
      ¬ ("Error".data.take k <:+ a ∧ "Error".data.drop k <+: b)) :
    ¬ "Error".data <:+: a ++ b := by
  intro h
  rcases infix_append_split _ a b h with h1 | h2 | ⟨k, hk0, hkl, hks, hkp⟩
  · exact ha h1
  · exact hb h2
  · have h5 : ("Error".data).length = 5 := rfl
    exact hbd k hk0 (by omega) ⟨hks, hkp⟩

/-- No nonempty proper prefix piece of `"Error"` can begin `B ++ X` when
none of the four candidate pieces begins `B` itself (for `B` of length
at least 4, so the piece fits inside `B`). -/
theorem err_drop_not_pre_of (k : Nat) (hk0 : 0 < k) (hkl : k < 5) (B X : List Char)
    (hlen : 4 ≤ B.length)
    (h1 : ¬ "Error".data.drop 1 <+: B) (h2 : ¬ "Error".data.drop 2 <+: B)
    (h3 : ¬ "Error".data.drop 3 <+: B) (h4 : ¬ "Error".data.drop 4 <+: B) :
    ¬ "Error".data.drop k <+: B ++ X := by
  intro h
  have h5 : ("Error".data).length = 5 := rfl
  have hl : ("Error".data.drop k).length ≤ B.length := by
    rw [List.length_drop, h5]
    omega
  rw [ List.isPrefix_append_of_length hl] at h
  have hk : k = 1 ∨ k = 2 ∨ k = 3 ∨ k = 4 := by omega
  rcases hk with hk | hk | hk | hk <;> subst hk
  exacts [h1 h, h2 h, h3 h, h4 h]

/-- Case split for the suffix side of a straddling occurrence. -/
theorem err_take_not_suf_of (k : Nat) (hk0 : 0 < k) (hkl : k < 5) (A : List Char)
    (h1 : ¬ "Error".data.take 1 <:+ A) (h2 : ¬ "Error".data.take 2 <:+ A)
    (h3 : ¬ "Error".data.take 3 <:+ A) (h4 : ¬ "Error".data.take 4 <:+ A) :
    ¬ "Error".data.take k <:+ A := by
  have hk : k = 1 ∨ k = 2 ∨ k = 3 ∨ k = 4 := by omega
  rcases hk with hk | hk | hk | hk <;> subst hk
  exacts [h1, h2, h3, h4]

theorem noErr_name_dot (nl : List Char) (hname : ¬ "Error".data <:+: nl) :
    ¬ "Error".data <:+: nl ++ ".".data := by
  apply noErr_append nl ".".data hname (by decide)
  intro k hk0 hkl hcon
  have hk : k = 1 ∨ k = 2 ∨ k = 3 ∨ k = 4 := by omega
  rcases hk with hk | hk | hk | hk <;> subst hk <;> exact absurd hcon.2 (by decide)

theorem noErr_msg_core (nl : List Char) (hname : ¬ "Error".data <:+: nl) :
    ¬ "Error".data <:+: "No content extracted from ".data ++ (nl ++ ".".data) := by
  apply noErr_append
  · decide
  · exact noErr_name_dot nl hname
  · intro k hk0 hkl hcon
    exact err_take_not_suf_of k hk0 hkl "No content extracted from ".data
      (by decide) (by decide) (by decide) (by decide) hcon.1

theorem noErr_message (name : String) (h : strContains name "Error" = false) :
    strContains (no_content_message name) "Error" = false := by
  have hname : ¬ "Error".data <:+: name.data := of_decide_eq_false h
  by_cases hn : name = ""
  · subst hn
    decide
  · have hmsg : no_content_message name = "No content extracted from " ++ name ++ "." := by
      unfold no_content_message
      rw [if_pos hn]
    unfold strContains
    apply decide_eq_false
    have hdata : (no_content_message name).data =
        "No content extracted from ".data ++ (name.data ++ ".".data) := by
      rw [hmsg]
      simp [String.data_append, List.append_assoc]
    rw [hdata]
    exact noErr_msg_core name.data hname

theorem noErr_labeled (name : String) (h : strContains name "Error" = false) :
    strContains (labeled_summary name (no_content_message name)) "Error" = false := by
  have hname : ¬ "Error".data <:+: name.data := of_decide_eq_false h
  by_cases hn : name = ""
  · subst hn
    decide
  · have hmsg : no_content_message name = "No content extracted from " ++ name ++ "." := by
      unfold no_content_message
      rw [if_pos hn]
    unfold strContains
    apply decide_eq_false
    have hdata : (labeled_summary name (no_content_message name)).data =
        "--- Context from ".data ++ (name.data ++ (" ---\n".data ++
          ("No content extracted from ".data ++ (name.data ++ ".".data)))) := by
      unfold labeled_summary
      rw [hmsg]
      simp [String.data_append, List.append_assoc]
    rw [hdata]
    apply noErr_append
    · decide
    · apply noErr_append
      · exact hname
      · apply noErr_append
        · decide
        · exact noErr_msg_core name.data hname
        · intro k hk0 hkl hcon
          exact err_take_not_suf_of k hk0 hkl " ---\n".data
            (by decide) (by decide) (by decide) (by decide) hcon.1
      · intro k hk0 hkl hcon
        exact err_drop_not_pre_of k hk0 hkl " ---\n".data _
          (by decide) (by decide) (by decide) (by decide) (by decide) hcon.2
    · intro k hk0 hkl hcon
      exact err_take_not_suf_of k hk0 hkl "--- Context from ".data
        (by decide) (by decide) (by decide) (by decide) hcon.1

theorem summarize_whitespace (api : String → Except String String) (max_chars : Nat)
    (text source_name : String) (h : pyStrip text = "") :
    summarize_text api text max_chars source_name = no_content_message source_name ∧
    summarize_api_calls text = 0 := by
  constructor <;> simp [summarize_text, summarize_api_calls, h]

theorem string_eq_empty_of_length (x : String) (h : x.length = 0) : x = "" := by
  obtain ⟨d⟩ := x
  cases d with
  | nil => rfl
  | cons c cs =>
    have hc : (String.mk (c :: cs)).length = cs.length + 1 := rfl
    rw [hc] at h
    omega

theorem pyJoin_ne_empty (sep x : String) (xs : List String) (hx : x ≠ "") :
    pyJoin sep (x :: xs) ≠ "" := by
  cases xs with
  | nil => simpa [pyJoin] using hx
  | cons y ys =>
    intro h
    have e : pyJoin sep (x :: y :: ys) = x ++ sep ++ pyJoin sep (y :: ys) := rfl
    rw [e] at h
    have hlen := congrArg String.length h
    rw [String.length_append, String.length_append] at hlen
    have hx0 : x.length ≠ 0 := fun h0 => hx (string_eq_empty_of_length x h0)
    have hz : ("" : String).length = 0 := rfl
    rw [hz] at hlen
    omega

theorem labeled_summary_ne_empty (name s : String) : labeled_summary name s ≠ "" := by
  intro h
  have hlen := congrArg String.length h
  unfold labeled_summary at hlen
  rw [String.length_append, String.length_append, String.length_append] at hlen
  have h17 : ("--- Context from " : String).length = 17 := rfl
  have h5 : (" ---\n" : String).length = 5 := rfl
  have hz : ("" : String).length = 0 := rfl
  rw [h17, h5, hz] at hlen
  omega

theorem pipeline_whitespace_completed (api : String → Except String String)
    (extracted : List (String × String)) (hne : extracted ≠ [])
    (hall : ∀ p ∈ extracted, pyStrip p.2 = "" ∧ strContains p.1 "Error" = false) :
    pipeline_halt api extracted = HaltPoint.completed := by
  have hhalt : halt_after_summaries (run_summaries api extracted) = false := by
    cases extracted with
    | nil => exact absurd rfl hne
    | cons p rest =>
      have hp := hall p (List.mem_cons_self p rest)
      have hsum : summarize_text api p.2 (select_max_chars p.2) p.1 = no_content_message p.1 :=
        (summarize_whitespace api _ p.2 p.1 hp.1).1
      have e : run_summaries api (p :: rest) =
          labeled_summary p.1 (summarize_text api p.2 (select_max_chars p.2) p.1) ::
            run_summaries api rest := rfl
      unfold halt_after_summaries
      rw [e, hsum, Bool.or_eq_false_iff]
      constructor
      · exact decide_eq_false
          (pyJoin_ne_empty "\n\n" _ _ (labeled_summary_ne_empty p.1 (no_content_message p.1)))
      · have hcE : containsError (labeled_summary p.1 (no_content_message p.1)) = false :=
          noErr_labeled p.1 hp.2
        rw [List.all_cons, hcE, Bool.false_and]
  unfold pipeline_halt
  rw [if_neg hne, hhalt]
  simp

/-- Claim C9 counterexample: with a source literally named `"Error"` and
whitespace-only extracted text, `summarize_text` returns
`"No content extracted from Error."` — which DOES contain `"Error"` —
and the run IS halted by the all-summaries-error check. -/
theorem claim9_counterexample :
    strContains (summarize_text (fun _ => Except.ok "sum") " " 1800 "Error") "Error" = true ∧
    pipeline_halt (fun _ => Except.ok "sum") [("Error", " ")] = HaltPoint.summaryFail := by
  decide

/-- Claim C9 (amended): for empty or whitespace-only input,
`summarize_text` returns the fixed no-content string without invoking
the generation capability; that string contains no `"Error"` — and a run
whose sources all extract to whitespace-only text is not halted —
PROVIDED no source name contains `"Error"` as a substring. -/
theorem claim9_theorem :
    (∀ (api : String → Except String String) (max_chars : Nat) (text source_name : String),
        pyStrip text = "" →
        summarize_text api text max_chars source_name = no_content_message source_name ∧
        summarize_api_calls text = 0) ∧
    (∀ source_name : String, strContains source_name "Error" = false →
        strContains (no_content_message source_name) "Error" = false) ∧
    (∀ (api : String → Except String String) (extracted : List (String × String)),
        extracted ≠ [] →
        (∀ p ∈ extracted, pyStrip p.2 = "" ∧ strContains p.1 "Error" = false) →
        pipeline_halt api extracted = HaltPoint.completed) :=
  ⟨summarize_whitespace, noErr_message, pipeline_whitespace_completed⟩

theorem claim9_witness :
    summarize_text (fun _ => Except.ok "s") "  " 1800 "site.pdf" = no_content_message "site.pdf" ∧
    summarize_api_calls "  " = 0 ∧
    strContains (no_content_message "site.pdf") "Error" = false ∧
    pipeline_halt (fun _ => Except.ok "s") [("website", "   ")] = HaltPoint.completed := by
  have h1 := claim9_theorem.1 (fun _ => Except.ok "s") 1800 "  " "site.pdf" (by decide)
  have h2 := claim9_theorem.2.1 "site.pdf" (by decide)
  have h3 := claim9_theorem.2.2 (fun _ => Except.ok "s") [("website", "   ")]
    (by decide) (by decide)
  exact ⟨h1.1, h1.2, h2, h3⟩

/-- Claim C5 counterexample: `"http://example.com?"` already has a
scheme, yet `add_http` does NOT return it unchanged — the
`urlparse`/`urlunparse` round trip drops the empty query marker. -/
theorem claim5_counterexample :
    add_http "http://example.com?" = some "http://example.com" ∧
    some ("http://example.com" : String) ≠ some ("http://example.com?" : String) := by
  decide

/-- Claim C5 (amended): `"example.com/page"` becomes
`"https://example.com/page"`; an input that already has a scheme is
returned as the `urlunparse` of its `urlparse` — equal to the input for
ordinary URLs such as `"http://example.com/page"`, but NOT always (a
degenerate empty `?` or `#` component is dropped); a SCHEME-LESS input
whose first path segment contains no dot is returned unchanged. -/
theorem claim5_theorem :
    add_http "example.com/page" = some "https://example.com/page" ∧
    add_http "http://example.com/page" = some "http://example.com/page" ∧
    (∀ (url : String) (p : ParseResult), url ≠ "" → urlparse url = some p →
      p.scheme ≠ "" → add_http url = some (urlunparse p)) ∧
    (∀ (url : String) (p : ParseResult), url ≠ "" → urlparse url = some p →
      p.scheme = "" → (firstPathSegmentL p.path.data).contains '.' = false →
      add_http url = some url) := by
  refine ⟨by decide, by decide, ?_, ?_⟩
  · intro url p hu hp hs
    unfold add_http
    rw [if_neg hu, hp]
    simp [hs]
  · intro url p hu hp hs hdot
    unfold add_http
    rw [if_neg hu, hp]
    have hmem : '.' ∉ firstPathSegmentL p.path.data := by
      simpa using hdot
    simp [hs, hmem]

theorem claim5_witness :
    add_http "http://example.com?" =
      some (urlunparse ⟨"http", "example.com", "", "", "", ""⟩) ∧
    add_http "localhost" = some "localhost" :=
  ⟨claim5_theorem.2.2.1 "http://example.com?" ⟨"http", "example.com", "", "", "", ""⟩
      (by decide) (by decide) (by decide),
   claim5_theorem.2.2.2 "localhost" ⟨"", "", "localhost", "", "", ""⟩
      (by decide) (by decide) (by decide) (by decide)⟩

/-- Claim C10 (confirmed): for the empty string — the only falsy string —
`add_http` returns its input unchanged, with no exception and no scheme
prefixed. -/
theorem claim10_theorem (url : String) (h : url = "") : add_http url = some url := by
  subst h
  decide

theorem claim10_witness : add_http "" = some "" :=
  claim10_theorem "" rfl

example : extract_json_block "oops \x60\x60\x60json\n42\n\x60\x60\x60 end" = some "42" := by decide
example : extract_json_block "\x60\x60\x60JSON  42  \x60\x60\x60" = some "42" := by decide
example : extract_json_block "\x60\x60\x60json bad\x60\x60\x60 \x60\x60\x60json 42\x60\x60\x60" = some "bad" := by decide
example : extract_json_block "pre \x60\x60\x60json\x60\x60\x60 post" = some "" := by decide
example : extract_json_block "\x60\x60\x60jsonx y\x60\x60\x60 z" = some "x y" := by decide
example : extract_json_block "\x60\x60\x60json no close" = none := by decide
example : extract_json_block "text \x60\x60\x60 stray \x60\x60\x60json 7\x60\x60\x60 tail" = some "7" := by decide
example : extract_json_block "a\x60\x60\x60JSONtail\x60\x60\x60b" = some "tail" := by decide
